import Mathlib

/-!
Shallow embedding of the concurrent DRM manifest classifier of
rodrigol1976/valid-drm (src/valid_drm.py, with the historical revision
src/valid_drm-v0.py for the refinement claim), together with proofs of the
specification claims.

Modelling conventions:
* The network (requests.get followed by raise_for_status and response.text)
  is an ambient function mapping a URL to a FetchOutcome: success carries the
  body text of a 2xx response; failure carries the message of the
  RequestException raised on connection errors, timeouts, TLS failures and
  non-2xx statuses.  urlparse(url).path is modelled by an ambient function
  urlPath.  Both are parameters of every definition, so theorems quantify
  over every possible network behaviour and URL shape.
* Side effects are explicit: check_manifest returns, next to its Verdict,
  the list of URLs it fetched, so "performs no network call" is the
  statement that this list is empty.
* Python exceptions that the code catches are data (the failure
  constructor); the embedded functions are total, mirroring the fact that
  check_manifest always returns a dict and never raises.
* The thread pool of main is modelled by quantifying over the completion
  order of the submitted futures: the as_completed loop is a fold over an
  arbitrary permutation of the future indices.
-/

/-- Substring test on lists of characters: pat occurs contiguously in l.
Embeds the Python expression pat in l for strings. -/
def containsSeq (pat : List Char) : List Char → Bool
  | [] => pat.isPrefixOf []
  | c :: rest => pat.isPrefixOf (c :: rest) || containsSeq pat rest

/-- Python substring containment: pat in s. -/
def strContains (s pat : String) : Bool :=
  containsSeq pat.toList s.toList

/-- Remove the leading whitespace characters of a character list. -/
def dropWhileWs : List Char → List Char
  | [] => []
  | c :: rest => if c.isWhitespace then dropWhileWs rest else c :: rest

/-- Python str.strip with no argument: remove leading and trailing
whitespace.  Modelled character-wise. -/
def pyStrip (s : String) : String :=
  String.mk ((dropWhileWs (dropWhileWs s.toList).reverse).reverse)

/-- Python str.lower, character-wise. -/
def pyLower (s : String) : String :=
  String.mk (s.toList.map Char.toLower)

/-- Python str.endswith. -/
def pyEndsWith (s pat : String) : Bool :=
  pat.toList.isSuffixOf s.toList

/-- Outcome of the one bounded-timeout fetch that check_manifest performs:
a 2xx response with its body text, or a RequestException message. -/
inductive FetchOutcome where
  | success (body : String)
  | failure (msg : String)
deriving DecidableEq, Repr

/-- The per-URL verdict dict built by check_manifest (src/valid_drm.py
lines 28-53).  The type field holds the literal strings of the code:
"-" (the spec enum value NONE), "UNKNOWN", "MPD", "M3U8". -/
structure Verdict where
  checked : Bool
  type : String
  drm_found : Bool
  error : Option String
deriving DecidableEq, Repr

/-- check_manifest from src/valid_drm.py lines 28-53.  First component is
the returned verdict, second the log of network calls made. -/
def check_manifest (urlPath : String → String) (net : String → FetchOutcome)
    (url : String) : Verdict × List String :=
  if url = "" then
    ({ checked := false, type := "-", drm_found := false, error := none }, [])
  else
    let result : Verdict :=
      { checked := true, type := "UNKNOWN", drm_found := false, error := none }
    match net url with
    | FetchOutcome.failure e =>
        ({ result with error := some e }, [url])
    | FetchOutcome.success content =>
        let path := pyLower (urlPath url)
        if pyEndsWith path ".mpd" then
          ({ result with
              type := "MPD"
              drm_found := strContains content "<ContentProtection" }, [url])
        else if pyEndsWith path ".m3u8" then
          let has_key := strContains content "#EXT-X-KEY"
          let method_none := strContains content "#EXT-X-KEY:METHOD=NONE"
          ({ result with
              type := "M3U8"
              drm_found := has_key && !method_none }, [url])
        else
          (result, [url])

/-- CSV_DRM_FIELDS from src/valid_drm.py line 12. -/
def CSV_DRM_FIELDS : List String := ["URL", "TIMESHIFT_URL"]

/-- A CSV row as produced by csv.DictReader: an association list from column
name to cell string. -/
abbrev Row : Type := List (String × String)

/-- Python dict.get(field, dflt): the stored value when the key is present,
otherwise the default; never raises. -/
def rowGet (row : Row) (field dflt : String) : String :=
  match List.lookup field row with
  | some v => v
  | none => dflt

/-- The body of the loop in process_row for one designated column
(src/valid_drm.py line 62): check_manifest(row.get(field, "").strip()). -/
def fieldVerdict (urlPath : String → String) (net : String → FetchOutcome)
    (row : Row) (field : String) : Verdict × List String :=
  check_manifest urlPath net (pyStrip (rowGet row field ""))

/-- process_row from src/valid_drm.py lines 56-63: classify both designated
columns of one row.  First component is the returned (index, drm_results)
pair (drm_results as an association list in field order), second the
concatenated network-call log. -/
def process_row (urlPath : String → String) (net : String → FetchOutcome)
    (index : Nat) (row : Row) : (Nat × List (String × Verdict)) × List String :=
  let out := CSV_DRM_FIELDS.foldl
    (fun (acc : List (String × Verdict) × List String) (field : String) =>
      let r := fieldVerdict urlPath net row field
      (acc.1 ++ [(field, r.1)], acc.2 ++ r.2))
    ([], [])
  ((index, out.1), out.2)

/-- The fan-out phase of main (src/valid_drm.py lines 159-163): the futures
dict, one submitted task per row, carrying (index, row). -/
def submitFutures (rows : List Row) : List (Nat × Row) := rows.enum

/-- State of the as_completed collect loop of main: the results slots
(initialised to [None] * total), the completed counter, and the list of
progress lines printed so far, each recorded as (completed, total). -/
abbrev DispatchState : Type :=
  List (Option (List (String × Verdict))) × Nat × List (Nat × Nat)

/-- One iteration of the as_completed loop of main (src/valid_drm.py
lines 165-179): take the result of the future for row index i, store it in
its slot, increment completed under the lock and print one progress line. -/
def collectStep (urlPath : String → String) (net : String → FetchOutcome)
    (rows : List Row) (st : DispatchState) (i : Nat) : DispatchState :=
  let fut := (process_row urlPath net i ((rows[i]?).getD [])).1
  (st.1.set fut.1 (some fut.2), st.2.1 + 1, st.2.2 ++ [(st.2.1 + 1, rows.length)])

/-- The fan-out/collect phase of main (src/valid_drm.py lines 153-179) for a
given completion order of the futures: fold the collect loop over the order
in which the tasks complete, starting from [None] * total, completed = 0 and
no progress lines. -/
def dispatchRun (urlPath : String → String) (net : String → FetchOutcome)
    (rows : List Row) (order : List Nat) : DispatchState :=
  order.foldl (collectStep urlPath net rows) (List.replicate rows.length none, 0, [])

/-- The verdicts computed for row i, as stored by the collect loop. -/
def rowResult (urlPath : String → String) (net : String → FetchOutcome)
    (rows : List Row) (i : Nat) : List (String × Verdict) :=
  (process_row urlPath net i ((rows[i]?).getD [])).1.2

/-- The M3U8 DRM rule of the earlier revision (src/valid_drm-v0.py
line 59): any key tag counts as DRM. -/
def m3u8_drm_naive (content : String) : Bool :=
  strContains content "#EXT-X-KEY"

/-- The M3U8 DRM rule of the current revision (src/valid_drm.py
lines 46-48): a key tag counts as DRM unless an explicit METHOD=NONE key
tag is present. -/
def m3u8_drm_refined (content : String) : Bool :=
  strContains content "#EXT-X-KEY" && !(strContains content "#EXT-X-KEY:METHOD=NONE")

/-- The tri-state invariant stated by the spec on a Verdict:
checked = false forces the not-applicable shape (type "-", no DRM, no
error); an error forces drm_found = false; and exactly one of
not-checked / error-present / classified holds. -/
def triStateInvariant (v : Verdict) : Bool :=
  (v.checked || (v.type == "-" && !v.drm_found && v.error == none)) &&
  (!(v.error).isSome || !v.drm_found) &&
  (let a := !v.checked
   let b := (v.error).isSome
   let c := v.checked && !(v.error).isSome
   (a && !b && !c) || (!a && b && !c) || (!a && !b && c))

theorem containsSeq_of_isPrefixOf {p q : List Char}
    (hpq : p.isPrefixOf q = true) :
    ∀ {l : List Char}, containsSeq q l = true → containsSeq p l = true := by
  intro l
  induction l with
  | nil =>
      intro h
      simp only [containsSeq] at h ⊢
      rw [ List.isPrefixOf_iff_prefix] at hpq h ⊢
      exact hpq.trans h
  | cons c rest ih =>
      intro h
      simp only [containsSeq, Bool.or_eq_true] at h ⊢
      rcases h with h | h
      · left
        rw [ List.isPrefixOf_iff_prefix] at hpq h ⊢
        exact hpq.trans h
      · right
        exact ih h

/-- C6: for the empty-string URL, check_manifest returns exactly
(checked := false, type := NONE (coded "-"), drm_found := false,
error := none) and performs no network call (the call log is empty). -/
theorem check_manifest_empty_url (urlPath : String → String)
    (net : String → FetchOutcome) :
    check_manifest urlPath net "" =
      ({ checked := false, type := "-", drm_found := false, error := none }, []) :=
  rfl

/-- C5: every verdict returned by check_manifest satisfies the tri-state
invariant: checked = false implies type NONE, drm_found = false and
error = none; a non-none error implies drm_found = false; and exactly one
of not-checked, error-present, classified holds. -/
theorem check_manifest_tri_state (urlPath : String → String)
    (net : String → FetchOutcome) (url : String) :
    triStateInvariant ((check_manifest urlPath net url).1) = true := by
  unfold check_manifest
  by_cases h : url = ""
  · simp [h, triStateInvariant]
  · simp only [h, if_false]
    cases hn : net url with
    | failure e => simp [triStateInvariant]
    | success content =>
        by_cases h1 : pyEndsWith (pyLower (urlPath url)) ".mpd"
        · simp [h1, triStateInvariant]
        · by_cases h2 : pyEndsWith (pyLower (urlPath url)) ".m3u8"
          · simp [h1, h2, triStateInvariant]
          · simp [h1, h2, triStateInvariant]

/-- C4: for every non-empty URL whose fetch fails (connection error,
timeout or non-2xx status, all surfacing as a RequestException), the
verdict has checked = true, a non-null error message, and
drm_found = false; check_manifest converts the failure to data and, being
a total function, never raises. -/
theorem check_manifest_transport_failure (urlPath : String → String)
    (net : String → FetchOutcome) (url msg : String) (hne : url ≠ "")
    (hfail : net url = FetchOutcome.failure msg) :
    ((check_manifest urlPath net url).1).checked = true ∧
    ((check_manifest urlPath net url).1).error = some msg ∧
    ((check_manifest urlPath net url).1).drm_found = false := by
  unfold check_manifest
  simp [hne, hfail]

theorem check_manifest_transport_failure_witness :
    ((check_manifest (fun u => u) (fun _ => FetchOutcome.failure "timed out")
        "http://h/a.mpd").1).checked = true ∧
    ((check_manifest (fun u => u) (fun _ => FetchOutcome.failure "timed out")
        "http://h/a.mpd").1).error = some "timed out" ∧
    ((check_manifest (fun u => u) (fun _ => FetchOutcome.failure "timed out")
        "http://h/a.mpd").1).drm_found = false :=
  check_manifest_transport_failure (fun u => u)
    (fun _ => FetchOutcome.failure "timed out") "http://h/a.mpd" "timed out"
    (by decide) rfl

/-- C3 counterexample: for the URL "http://h/a.mpd" (path "/a.mpd", which
ends with ".mpd") whose fetch fails, the verdict's type is "UNKNOWN", not
"MPD": path-based type resolution in the code happens only after a
successful fetch, so the claim as stated is false. -/
theorem failed_fetch_typed_cex :
    ((check_manifest (fun _ => "/a.mpd") (fun _ => FetchOutcome.failure "timed out")
        "http://h/a.mpd").1).type = "UNKNOWN" ∧
    ((check_manifest (fun _ => "/a.mpd") (fun _ => FetchOutcome.failure "timed out")
        "http://h/a.mpd").1).type ≠ "MPD" := by
  constructor
  · rfl
  · decide

/-- C3 amended: for every non-empty URL whose fetch fails, the verdict's
type remains "UNKNOWN" whatever the URL path is (the code resolves the
path-derived type only after the response body has been obtained, so the
except branch leaves type at its default). -/
theorem failed_fetch_type_unknown (urlPath : String → String)
    (net : String → FetchOutcome) (url msg : String) (hne : url ≠ "")
    (hfail : net url = FetchOutcome.failure msg) :
    (check_manifest urlPath net url).1 =
      { checked := true, type := "UNKNOWN", drm_found := false, error := some msg } := by
  unfold check_manifest
  simp [hne, hfail]

theorem failed_fetch_type_unknown_witness :
    (check_manifest (fun _ => "/a.mpd") (fun _ => FetchOutcome.failure "timed out")
        "http://h/a.mpd").1 =
      { checked := true, type := "UNKNOWN", drm_found := false, error := some "timed out" } :=
  failed_fetch_type_unknown (fun _ => "/a.mpd")
    (fun _ => FetchOutcome.failure "timed out") "http://h/a.mpd" "timed out"
    (by decide) rfl

/-- C2: for every non-empty URL whose fetch succeeds, the verdict follows
the type rule exactly: a path ending in ".mpd" (after lower-casing) gives
type MPD with drm_found iff the body contains "<ContentProtection"; else a
path ending in ".m3u8" gives type M3U8 with drm_found iff the body
contains "#EXT-X-KEY" and does not contain "#EXT-X-KEY:METHOD=NONE"; any
other path gives type UNKNOWN with drm_found = false whatever the body. -/
theorem check_manifest_drm_rules (urlPath : String → String)
    (net : String → FetchOutcome) (url body : String) (hne : url ≠ "")
    (hok : net url = FetchOutcome.success body) :
    (pyEndsWith (pyLower (urlPath url)) ".mpd" = true →
        (check_manifest urlPath net url).1 =
          ⟨true, "MPD", strContains body "<ContentProtection", none⟩) ∧
    (pyEndsWith (pyLower (urlPath url)) ".mpd" = false →
      pyEndsWith (pyLower (urlPath url)) ".m3u8" = true →
        (check_manifest urlPath net url).1 =
          ⟨true, "M3U8",
            strContains body "#EXT-X-KEY" && !(strContains body "#EXT-X-KEY:METHOD=NONE"),
            none⟩) ∧
    (pyEndsWith (pyLower (urlPath url)) ".mpd" = false →
      pyEndsWith (pyLower (urlPath url)) ".m3u8" = false →
        (check_manifest urlPath net url).1 = ⟨true, "UNKNOWN", false, none⟩) := by
  refine ⟨?_, ?_, ?_⟩
  · intro h1
    unfold check_manifest
    simp [hne, hok, h1]
  · intro h1 h2
    unfold check_manifest
    simp [hne, hok, h1, h2]
  · intro h1 h2
    unfold check_manifest
    simp [hne, hok, h1, h2]

theorem check_manifest_drm_rules_witness :
    (check_manifest (fun _ => "/A.MPD")
        (fun _ => FetchOutcome.success "x<ContentProtection y") "u").1 =
      ⟨true, "MPD", strContains "x<ContentProtection y" "<ContentProtection", none⟩ :=
  (check_manifest_drm_rules (fun _ => "/A.MPD")
      (fun _ => FetchOutcome.success "x<ContentProtection y") "u"
      "x<ContentProtection y" (by decide) rfl).1 (by decide)

/-- C9: the naive M3U8 rule of the earlier revision and the refined rule of
the current revision agree exactly on bodies not containing
"#EXT-X-KEY:METHOD=NONE"; on bodies containing that substring, the naive
rule returns true (the substring extends "#EXT-X-KEY") and the refined
rule returns false. -/
theorem m3u8_rule_refinement (body : String) :
    (strContains body "#EXT-X-KEY:METHOD=NONE" = false →
        m3u8_drm_naive body = m3u8_drm_refined body) ∧
    (strContains body "#EXT-X-KEY:METHOD=NONE" = true →
        m3u8_drm_naive body = true ∧ m3u8_drm_refined body = false) := by
  constructor
  · intro h
    unfold m3u8_drm_naive m3u8_drm_refined
    rw [h]
    simp
  · intro h
    have hk : strContains body "#EXT-X-KEY" = true := by
      unfold strContains at h ⊢
      exact containsSeq_of_isPrefixOf (by decide) h
    refine ⟨hk, ?_⟩
    unfold m3u8_drm_refined
    rw [h, hk]
    simp

theorem m3u8_rule_refinement_witness :
    m3u8_drm_naive "#EXT-X-KEY:METHOD=AES-128,URI=k" =
      m3u8_drm_refined "#EXT-X-KEY:METHOD=AES-128,URI=k" ∧
    (m3u8_drm_naive "#EXT-X-KEY:METHOD=NONE" = true ∧
      m3u8_drm_refined "#EXT-X-KEY:METHOD=NONE" = false) :=
  ⟨(m3u8_rule_refinement "#EXT-X-KEY:METHOD=AES-128,URI=k").1 (by decide),
   (m3u8_rule_refinement "#EXT-X-KEY:METHOD=NONE").2 (by decide)⟩

/-- C10: a designated column whose cell strips to the empty string (a
whitespace-only cell, or a missing cell defaulted to "" by dict.get) is
classified exactly like the empty URL: the not-applicable verdict with no
network call. -/
theorem stripped_empty_cell_not_applicable (urlPath : String → String)
    (net : String → FetchOutcome) (row : Row) (field : String)
    (h : pyStrip (rowGet row field "") = "") :
    fieldVerdict urlPath net row field =
      ({ checked := false, type := "-", drm_found := false, error := none }, []) := by
  unfold fieldVerdict
  rw [h]
  rfl

theorem stripped_empty_cell_witness :
    fieldVerdict (fun u => u) (fun _ => FetchOutcome.failure "e")
        [("URL", "   ")] "URL" =
      ({ checked := false, type := "-", drm_found := false, error := none }, []) :=
  stripped_empty_cell_not_applicable (fun u => u)
    (fun _ => FetchOutcome.failure "e") [("URL", "   ")] "URL" (by decide)

/-- C8 counterexample: a row that lacks the designated column
TIMESHIFT_URL is processed without any failure: process_row returns
normally, treating the missing cell (dict.get default "") as not
applicable, with no network call — it does not fail the run. -/
theorem missing_column_cex :
    (process_row (fun u => u) (fun _ => FetchOutcome.failure "boom") 0
        [("URL", "")]).1.2 =
      [("URL", { checked := false, type := "-", drm_found := false, error := none }),
       ("TIMESHIFT_URL", { checked := false, type := "-", drm_found := false, error := none })] ∧
    (process_row (fun u => u) (fun _ => FetchOutcome.failure "boom") 0
        [("URL", "")]).2 = [] := by
  constructor
  · rfl
  · rfl

/-- C8 amended: a row record lacking one of the two designated DRM columns
does not fail the run: dict.get defaults the missing cell to the empty
string, so the column is silently treated as a not-applicable value
(checked = false) with no network call. -/
theorem missing_column_not_applicable (urlPath : String → String)
    (net : String → FetchOutcome) (row : Row) (field : String)
    (h : List.lookup field row = none) :
    fieldVerdict urlPath net row field =
      ({ checked := false, type := "-", drm_found := false, error := none }, []) := by
  unfold fieldVerdict rowGet
  rw [h]
  rfl

theorem missing_column_witness :
    fieldVerdict (fun u => u) (fun _ => FetchOutcome.failure "e")
        [("URL", "x")] "TIMESHIFT_URL" =
      ({ checked := false, type := "-", drm_found := false, error := none }, []) :=
  missing_column_not_applicable (fun u => u)
    (fun _ => FetchOutcome.failure "e") [("URL", "x")] "TIMESHIFT_URL" (by decide)

theorem dispatch_results_foldl (urlPath : String → String)
    (net : String → FetchOutcome) (rows : List Row) (order : List Nat) :
    ∀ st : DispatchState,
      (order.foldl (collectStep urlPath net rows) st).1 =
        order.foldl
          (fun acc i => acc.set i (some (rowResult urlPath net rows i))) st.1 := by
  induction order with
  | nil => intro st; rfl
  | cons j t ih =>
      intro st
      rw [List.foldl_cons, List.foldl_cons, ih]
      rfl

theorem dispatchRun_results (urlPath : String → String)
    (net : String → FetchOutcome) (rows : List Row) (order : List Nat) :
    (dispatchRun urlPath net rows order).1 =
      order.foldl (fun acc i => acc.set i (some (rowResult urlPath net rows i)))
        (List.replicate rows.length none) := by
  unfold dispatchRun
  rw [dispatch_results_foldl]

theorem dispatch_events_count (urlPath : String → String)
    (net : String → FetchOutcome) (rows : List Row) (order : List Nat) :
    ∀ st : DispatchState,
      ((order.foldl (collectStep urlPath net rows) st).2.2).length =
        st.2.2.length + order.length := by
  induction order with
  | nil => intro st; simp
  | cons j t ih =>
      intro st
      rw [List.foldl_cons, ih]
      show (st.2.2 ++ [(st.2.1 + 1, rows.length)]).length + t.length =
        st.2.2.length + (j :: t).length
      rw [List.length_append, List.length_cons]
      simp
      omega

theorem dispatchRun_events (urlPath : String → String)
    (net : String → FetchOutcome) (rows : List Row) (order : List Nat) :
    ((dispatchRun urlPath net rows order).2.2).length = order.length := by
  unfold dispatchRun
  rw [dispatch_events_count]
  simp

theorem foldl_set_lookup {α : Type} (v : Nat → α) (ord : List Nat)
    (init : List (Option α)) (i : Nat) :
    (ord.foldl (fun acc j => acc.set j (some (v j))) init)[i]? =
      if i ∈ ord ∧ i < init.length then some (some (v i)) else init[i]? := by
  induction ord generalizing init with
  | nil => simp
  | cons j t ih =>
      rw [List.foldl_cons, ih, List.length_set, List.getElem?_set]
      by_cases hmem : i ∈ t ∧ i < init.length
      · rw [if_pos hmem, if_pos ⟨List.mem_cons.2 (Or.inr hmem.1), hmem.2⟩]
      · rw [if_neg hmem]
        by_cases hji : j = i
        · subst hji
          by_cases hlen : j < init.length
          · rw [if_pos rfl, if_pos hlen,
              if_pos ⟨List.mem_cons.2 (Or.inl rfl), hlen⟩]
          · rw [if_pos rfl, if_neg hlen, if_neg (fun hc => hlen hc.2),
              List.getElem?_eq_none (Nat.le_of_not_lt hlen)]
        · rw [if_neg hji]
          have hnot : ¬(i ∈ j :: t ∧ i < init.length) := by
            intro hc
            rcases List.mem_cons.1 hc.1 with h1 | h1
            · exact hji h1.symm
            · exact hmem ⟨h1, hc.2⟩
          rw [if_neg hnot]

/-- C1: for every input row sequence and every completion order of the
submitted tasks (any permutation of the row indices), the collect phase of
main yields exactly one row result per input row, placed at the row's
original index: slot i holds the result of processing row i, and the
output has the same length as the input. -/
theorem dispatch_preserves_row_order (urlPath : String → String)
    (net : String → FetchOutcome) (rows : List Row) (order : List Nat)
    (h : order.Perm (List.range rows.length)) :
    (dispatchRun urlPath net rows order).1 =
      (List.range rows.length).map
        (fun i => some (rowResult urlPath net rows i)) ∧
    (dispatchRun urlPath net rows order).1.length = rows.length := by
  have main : (dispatchRun urlPath net rows order).1 =
      (List.range rows.length).map
        (fun i => some (rowResult urlPath net rows i)) := by
    rw [dispatchRun_results]
    apply List.ext_getElem?
    intro i
    rw [foldl_set_lookup, List.length_replicate]
    by_cases hi : i < rows.length
    · rw [if_pos ⟨h.mem_iff.2 (List.mem_range.2 hi), hi⟩,
        List.getElem?_map, List.getElem?_range hi]
      rfl
    · rw [if_neg (fun hc => hi hc.2), List.getElem?_replicate, if_neg hi,
        List.getElem?_map,
        List.getElem?_eq_none (by rw [List.length_range]; exact Nat.le_of_not_lt hi)]
      rfl
  refine ⟨main, ?_⟩
  rw [main, List.length_map, List.length_range]

theorem dispatch_preserves_row_order_witness :
    (dispatchRun (fun u => u) (fun _ => FetchOutcome.failure "e")
        [[("URL", "a")], [("URL", "b")]] [1, 0]).1 =
      (List.range [[("URL", "a")], [("URL", "b")]].length).map
        (fun i => some (rowResult (fun u => u) (fun _ => FetchOutcome.failure "e")
          [[("URL", "a")], [("URL", "b")]] i)) ∧
    (dispatchRun (fun u => u) (fun _ => FetchOutcome.failure "e")
        [[("URL", "a")], [("URL", "b")]] [1, 0]).1.length =
      [[("URL", "a")], [("URL", "b")]].length :=
  dispatch_preserves_row_order (fun u => u) (fun _ => FetchOutcome.failure "e")
    [[("URL", "a")], [("URL", "b")]] [1, 0] (by decide)

/-- C7 counterexample: for a concrete one-row input, the fan-out phase of
main submits 1 task (not 2 × 1: tasks are submitted per row, not per
row-column pair) and the collect loop emits 1 progress notification (not
2 × 1). -/
theorem tasks_per_pair_cex :
    (submitFutures [[("URL", "u")]]).length ≠ 2 * 1 ∧
    ((dispatchRun (fun u => u) (fun _ => FetchOutcome.failure "e")
        [[("URL", "u")]] [0]).2.2).length ≠ 2 * 1 := by
  constructor
  · decide
  · decide

/-- C7 amended: for an input of N rows the dispatcher submits one
classification task per row — N tasks in total, each covering both
designated columns — and emits one progress notification per completed
task, i.e. exactly N notifications per run. -/
theorem one_task_one_progress_per_row (urlPath : String → String)
    (net : String → FetchOutcome) (rows : List Row) (order : List Nat)
    (h : order.Perm (List.range rows.length)) :
    (submitFutures rows).length = rows.length ∧
    ((dispatchRun urlPath net rows order).2.2).length = rows.length := by
  constructor
  · exact List.enum_length
  · rw [dispatchRun_events, h.length_eq, List.length_range]

theorem one_task_one_progress_witness :
    (submitFutures [[("URL", "u")]]).length = [[("URL", "u")]].length ∧
    ((dispatchRun (fun u => u) (fun _ => FetchOutcome.failure "e")
        [[("URL", "u")]] [0]).2.2).length = [[("URL", "u")]].length :=
  one_task_one_progress_per_row (fun u => u) (fun _ => FetchOutcome.failure "e")
    [[("URL", "u")]] [0] (by decide)
